import Mathlib

/-!
Shallow embedding of `crates/steam-trading/src/lib.rs` (SteamHelper-rs).

The orchestrator (`SteamTradeManager`) is embedded as pure functions over
explicit collaborator oracles: the transport, the session store, the Steam
API list endpoint and the mobile-confirmation collaborator are all external
(spec section 6), so each operation takes their answers as arguments and returns
the computed result together with the list of observable network events.
A result of `none` (in `Option (Except TradeError T)`) embeds a Rust panic
(an `unwrap` on `None`); `some` embeds ordinary return.
-/

namespace SteamTrading

/-- Errors produced by the response classifier (errors.rs `OfferError`).
The mapped platform-error variants are modelled from the spec (section 4.3): the
spec names throttling, escrow and invalid items as known failure modes. -/
inductive OfferError where
  | NoMatch
  | GeneralFailure (msg : String)
  | Throttled
  | Escrow
  | InvalidItems
deriving DecidableEq

/-- Reconciler errors (errors.rs `ConfirmationError`, spec section 7). -/
inductive ConfirmationError where
  | NotFound
  | NotFoundButTradeCreated (id : Int)
deriving DecidableEq

/-- Top-level error type (errors.rs `TradeError`, spec section 7). -/
inductive TradeError where
  | OfferErr (e : OfferError)
  | ConfirmationErr (e : ConfirmationError)
  | PayloadError (msg : String)
  | ValidationError (msg : String)
  | TransportError (msg : String)
  | GuardError (msg : String)
deriving DecidableEq

/-- Trade offer states from steam-language-gen; only `Active` matters here. -/
inductive ETradeOfferState where
  | Active
  | Accepted
  | Declined
  | Countered
  | Expired
  | Canceled
  | InvalidState
  | InEscrow
deriving DecidableEq

/-- An asset is identified by its `(app, context, asset)` triple (spec section 4.1). -/
structure Asset where
  appid : Int
  contextid : Int
  assetid : Int
deriving DecidableEq

/-- Modelled from the spec: the offer records returned by the list-offers read
endpoint (tappet `TradeOffer_Trade`, not under src/). Spec sections 4.2 and 6: records
carry the trade offer id, the counterparty account id, the offer state and
whether the offer was sent by us. -/
structure TradeOffer_Trade where
  tradeofferid : Int
  accountid_other : Int
  state : ETradeOfferState
  is_our_offer : Bool
deriving DecidableEq

/-- Modelled from the spec: `Tradelink` (types/trade_link.rs, not under src/).
Spec section 3: partner id always resolvable to a 64-bit user id; token may be absent. -/
structure Tradelink where
  partner_id : Nat
  token : Option String
  raw_url : String
deriving DecidableEq

/-- Modelled from the spec: `TradeOffer` (types/trade_offer.rs, not under src/).
Spec section 3: two ordered asset sequences plus the counterparty tradelink. -/
structure TradeOffer where
  my_assets : List Asset
  their_assets : List Asset
  their_tradelink : Tradelink
deriving DecidableEq

/-- Out-of-band confirmation record (steam-mobile `Confirmation`, spec section 3). -/
structure Confirmation where
  id : Int
  related_trade_offer_id : Option Int
deriving DecidableEq

/-- The operation kinds (types.rs `TradeKind`). -/
inductive TradeKind where
  | Create (offer : TradeOffer)
  | Accept
  | Cancel
  | Decline

/-- Success envelope for Create and Accept (types/trade_offer_web.rs
`TradeOfferCreateResponse`): optional string-encoded trade offer id and optional
mobile-confirmation flag (spec section 6). -/
structure TradeOfferCreateResponse where
  tradeofferid : Option String
  needs_mobile_confirmation : Option Bool
deriving DecidableEq

/-- Generic error envelope (types/trade_offer_web.rs
`TradeOfferGenericErrorResponse`): optional message and optional eresult code. -/
structure TradeOfferGenericErrorResponse where
  error_message : Option String
  eresult : Option Int
deriving DecidableEq

/-- Fixed limits (lib.rs constants). -/
def TRADE_MAX_ITEMS : Nat := 255

/-- Standard pacing delay in milliseconds (lib.rs `STANDARD_DELAY`). -/
def STANDARD_DELAY : Nat := 1000

def TRADEOFFER_BASE : String := "https://steamcommunity.com/tradeoffer/"

def TRADEOFFER_NEW_URL : String := TRADEOFFER_BASE ++ "new/send"

/-- Modelled from the spec: `SteamID::to_steam64` (steamid-parser crate, not under
src/). A steam3 individual account id resolves to the 64-bit id by adding the
fixed individual-account base (spec section 3: partner id resolvable to a 64-bit id). -/
def to_steam64 (accountid : Nat) : Nat := 76561197960265728 + accountid

/-- Modelled from the spec: `TradeKind::endpoint` (types.rs, not under src/).
Spec section 4.2: Create posts to the fixed new-offer path, the other kinds post to
the per-offer action path. -/
def TradeKind.endpoint : TradeKind → Option Int → String
  | .Create _, _ => TRADEOFFER_NEW_URL
  | .Accept, tid => TRADEOFFER_BASE ++ toString (tid.getD 0) ++ "/accept"
  | .Cancel, tid => TRADEOFFER_BASE ++ toString (tid.getD 0) ++ "/cancel"
  | .Decline, tid => TRADEOFFER_BASE ++ toString (tid.getD 0) ++ "/decline"

/-- Modelled from the spec: the fixed string-to-ErrorKind table of errors.rs (not
under src/), with representative entries for the failure modes the spec names in
section 4.3 (throttling, escrow, invalid items). -/
def strErrorTable : List (String × OfferError) :=
  [("You have sent too many trade offers, or have too many outstanding trade offers with this user.",
    .Throttled),
   ("This trade offer is in an invalid state, and cannot be acted upon.", .InvalidItems),
   ("You cannot trade with this user because they have a trade hold.", .Escrow)]

/-- Modelled from the spec: the fixed numeric eresult table of errors.rs (not
under src/), spec section 4.3 step 2b and the section 8 scenario (code 25 maps to a
specific kind; unmapped codes fall back to `GeneralFailure`). -/
def eresultTable : List (Int × OfferError) :=
  [(25, .Throttled), (26, .InvalidItems), (11, .InvalidItems)]

/-- Modelled from the spec: `error_from_strmessage` (errors.rs, not under src/).
Spec section 4.3 step 2a: the error message is looked up in the fixed
string-to-ErrorKind table and unmapped strings classify as `GeneralFailure`
carrying the raw message. The caller in lib.rs unwraps the returned `Option`,
so for the behaviour the spec describes the fallback must live here; the
function therefore never returns `none`. -/
def error_from_strmessage (msg : String) : Option OfferError :=
  some ((strErrorTable.lookup msg).getD (.GeneralFailure msg))

/-- Modelled from the spec: `tradeoffer_error_from_eresult` (errors.rs, not under
src/). Spec section 4.3 step 2b: mapped through the fixed numeric table, unmapped
codes classify as `GeneralFailure`. -/
def tradeoffer_error_from_eresult (er : Int) : OfferError :=
  (eresultTable.lookup er).getD (.GeneralFailure ("eresult code " ++ toString er))

/-- Modelled from the spec: `TradeOffer::validate` (types/trade_offer.rs, not
under src/). Spec section 4.1: total item count at most 255, reject if both sides
empty, no duplicate `(app, context, asset)` triples within one side; fail-fast,
first violated rule in that order. -/
def validate (my_assets their_assets : List Asset) : Except TradeError Unit :=
  if my_assets.length + their_assets.length > TRADE_MAX_ITEMS then
    .error (.ValidationError "A trade offer cannot have more than 255 items.")
  else if my_assets = [] ∧ their_assets = [] then
    .error (.ValidationError "A trade offer cannot be empty on both sides.")
  else if ¬ my_assets.Nodup ∨ ¬ their_assets.Nodup then
    .error (.ValidationError "A trade offer side cannot repeat an asset.")
  else
    .ok ()

/-- The body of the payload sent to the trade endpoint (types/trade_offer_web.rs
request shapes, restricted to the fields the claims are about). -/
inductive PayloadBody where
  | accept (their_steamid : Nat) (tradeofferid : Int)
  | generic
  | create (their_steamid64 : Nat) (my_assets their_assets : List Asset)
      (token : Option String)
deriving DecidableEq

/-- A payload together with the injected session identifier (`set_sessionid`). -/
structure Payload where
  body : PayloadBody
  sessionid : Option String
deriving DecidableEq

/-- Observable network / pacing events of one operation, in order. -/
inductive NetEvent where
  | getTradeOffers
  | postTrade (endpoint : String) (payload : Payload)
  | guardCheck
  | delayMs (n : Nat)
  | fetchConfirmations
  | processConfirmations (confs : List Confirmation)
deriving DecidableEq

/-- Answers of the external collaborators consumed by one `request` call:
the list-offers read endpoint, the session cookie store (`dump_cookie`), the
transport (`request_custom_endpoint` + `text`), the two serde parse attempts
and the guard-change check. -/
structure ReqOracles (T : Type) where
  offersResult : Except TradeError (List TradeOffer_Trade)
  sessionid : Option String
  transport : Except TradeError String
  parseT : String → Option T
  parseGeneric : String → Option TradeOfferGenericErrorResponse
  guardCheck : Except TradeError Unit

/-- The layered response classification of `request` (lib.rs lines 419-450):
try the success shape, then the generic error envelope (message, then eresult),
then the fully-unrecognized fallback, which consults the guard check only when
a tradelink was supplied (Create). `none` embeds the panic of
`error_from_strmessage(..).unwrap()` on an unmapped message. -/
def classify {T : Type} (pT : String → Option T)
    (pG : String → Option TradeOfferGenericErrorResponse)
    (guard : Option (Except TradeError Unit)) (txt : String) :
    Option (Except TradeError T) :=
  match pT txt with
  | some v => some (.ok v)
  | none =>
    match pG txt with
    | some resp =>
      match resp.error_message with
      | some msg =>
        match error_from_strmessage msg with
        | some e => some (.error (.OfferErr e))
        | none => none
      | none =>
        match resp.eresult with
        | some er => some (.error (.OfferErr (tradeoffer_error_from_eresult er)))
        | none => some (.error (.OfferErr (.GeneralFailure ("Steam Response: " ++ txt))))
    | none =>
      match guard with
      | some (.error err) => some (.error err)
      | _ => some (.error (.OfferErr (.GeneralFailure ("Steam Response: " ++ txt))))

/-- The message of the payload error raised when no sessionid cookie exists
(lib.rs lines 402-408). -/
def sessionErrMsg : String :=
  "Somehow you do not have a sessionid cookie. You need to login first."

/-- The tail of `request` after the payload body is built (lib.rs lines
402-450): look up the sessionid cookie, fail with `PayloadError` if absent,
inject it into the payload, send the POST, then classify the response text.
The guard check runs (and is recorded in the trace) only on the
fully-unrecognized branch and only when a tradelink was supplied. -/
def afterPayload {T : Type} (o : ReqOracles T) (body : PayloadBody)
    (trace : List NetEvent) (guard : Option (Except TradeError Unit))
    (ep : String) : Option (Except TradeError T) × List NetEvent :=
  match o.sessionid with
  | none => (some (.error (.PayloadError sessionErrMsg)), trace)
  | some sid =>
    match o.transport with
    | .error e => (some (.error e), trace ++ [.postTrade ep ⟨body, some sid⟩])
    | .ok txt =>
      (classify o.parseT o.parseGeneric guard txt,
       trace ++ [.postTrade ep ⟨body, some sid⟩] ++
         (if (o.parseT txt).isNone && (o.parseGeneric txt).isNone && guard.isSome then
            [NetEvent.guardCheck]
          else []))

/-- `TradeOffer::validate` then assembly of the create payload
(lib.rs `prepare_offer`, lines 455-470). -/
def prepare_offer (tradeoffer : TradeOffer) : Except TradeError PayloadBody :=
  match validate tradeoffer.my_assets tradeoffer.their_assets with
  | .error e => .error e
  | .ok _ =>
    .ok (.create (to_steam64 tradeoffer.their_tradelink.partner_id)
      tradeoffer.my_assets tradeoffer.their_assets tradeoffer.their_tradelink.token)

/-- `SteamTradeManager::request` (lib.rs lines 341-451). For `Accept` the
counterparty id is resolved by a round-trip to the list-offers endpoint
(`get_tradeoffer_by_id`), matching by offer id; the matched record's
`tradeofferid` is truncated to u32 and fed through steam3-to-steam64
(exactly as the source does). `none` embeds a panic
(`tradeoffer_id.unwrap()` with no id, or an unwrap inside classification). -/
def request {T : Type} (o : ReqOracles T) (operation : TradeKind)
    (tradeoffer_id : Option Int) : Option (Except TradeError T) × List NetEvent :=
  let ep := operation.endpoint tradeoffer_id
  match operation with
  | .Accept =>
    match tradeoffer_id with
    | none => (none, [])
    | some tid =>
      match o.offersResult with
      | .error e => (some (.error e), [.getTradeOffers])
      | .ok offers =>
        match (offers.filter (fun c => c.tradeofferid == tid)).head? with
        | none => (some (.error (.OfferErr .NoMatch)), [.getTradeOffers])
        | some c =>
          afterPayload o
            (.accept (to_steam64 ((c.tradeofferid % 4294967296).toNat)) tid)
            [.getTradeOffers] none ep
  | .Cancel => afterPayload o .generic [] none ep
  | .Decline => afterPayload o .generic [] none ep
  | .Create offer =>
    match prepare_offer offer with
    | .error e => (some (.error e), [])
    | .ok body =>
      afterPayload o body []
        (some o.guardCheck) ep

/-- Embedding of Rust `i64::from_str`: optional sign, at least one digit, all
decimal digits, value within the 64-bit signed range; `none` on anything else. -/
def parse_i64 (s : String) : Option Int :=
  let sd : Int × List Char :=
    match s.data with
    | '-' :: rest => (-1, rest)
    | '+' :: rest => (1, rest)
    | l => (1, l)
  if sd.2.isEmpty then none
  else if sd.2.all (fun c => c.isDigit) then
    let n : Nat := sd.2.foldl (fun a c => a * 10 + (c.toNat - 48)) 0
    let v : Int := sd.1 * (n : Int)
    if -(2 ^ 63) ≤ v ∧ v ≤ 2 ^ 63 - 1 then some v else none
  else none

/-- Post-processing of the Create success envelope (lib.rs lines 279-283):
`c.tradeofferid.map(|x| i64::from_str(&*x).unwrap()).unwrap()`. `none` embeds
the panics of the two unwraps (field absent, or not a decimal i64). -/
def createOfferPostprocess
    (res : Option (Except TradeError TradeOfferCreateResponse)) :
    Option (Except TradeError Int) :=
  match res with
  | none => none
  | some (.error e) => some (.error e)
  | some (.ok c) =>
    match c.tradeofferid with
    | none => none
    | some s => (parse_i64 s).map (fun n => .ok n)

/-- `SteamTradeManager::create_offer` (lib.rs lines 279-283). -/
def create_offer (o : ReqOracles TradeOfferCreateResponse)
    (tradeoffer : TradeOffer) : Option (Except TradeError Int) × List NetEvent :=
  let r := request o (.Create tradeoffer) none
  (createOfferPostprocess r.1, r.2)

/-- Answers of the confirmation collaborator (`fetch_confirmations` and
`process_confirmations`, spec section 6). -/
structure ConfirmOracles where
  fetch : Except TradeError (Option (List Confirmation))
  process : List Confirmation → Except TradeError Unit

/-- Modelled from the spec: `Confirmations::filter_by_trade_offer_ids`
(steam-mobile crate, not under src/). Spec sections 3 and 4.4: keep the
confirmations whose `related_trade_offer_id` is in the given id set. -/
def filter_by_trade_offer_ids (ids : List Int) (confs : List Confirmation) :
    List Confirmation :=
  confs.filter (fun c =>
    match c.related_trade_offer_id with
    | some t => ids.contains t
    | none => false)

/-- The confirmation phase of `create_offer_and_confirm` (lib.rs lines
253-274): wait the standard delay, fetch the confirmations, filter to the
offer id, return `NotFoundButTradeCreated` only when the fetch produced no
confirmation list at all (`confirmations.is_none()`), otherwise process the
(possibly empty) filtered set. -/
def confirmPhaseCreate (tradeoffer_id : Int) (co : ConfirmOracles) :
    Except TradeError Int × List NetEvent :=
  match co.fetch with
  | .error e => (.error e, [.delayMs STANDARD_DELAY, .fetchConfirmations])
  | .ok confsOpt =>
    match confsOpt.map (fun conf => filter_by_trade_offer_ids [tradeoffer_id] conf) with
    | none =>
      (.error (.ConfirmationErr (.NotFoundButTradeCreated tradeoffer_id)),
       [.delayMs STANDARD_DELAY, .fetchConfirmations])
    | some filtered =>
      match co.process filtered with
      | .error e =>
        (.error e,
         [.delayMs STANDARD_DELAY, .fetchConfirmations, .processConfirmations filtered])
      | .ok _ =>
        (.ok tradeoffer_id,
         [.delayMs STANDARD_DELAY, .fetchConfirmations, .processConfirmations filtered])

/-- `SteamTradeManager::create_offer_and_confirm` (lib.rs lines 250-275). -/
def create_offer_and_confirm (o : ReqOracles TradeOfferCreateResponse)
    (co : ConfirmOracles) (tradeoffer : TradeOffer) :
    Option (Except TradeError Int) × List NetEvent :=
  let r := create_offer o tradeoffer
  match r.1 with
  | none => (none, r.2)
  | some (.error e) => (some (.error e), r.2)
  | some (.ok tid) =>
    let c := confirmPhaseCreate tid co
    (some c.1, r.2 ++ c.2)

/-- The early-return test of `accept_offer` (lib.rs line 291), letter for
letter: `resp.needs_mobile_confirmation.is_none() &&
!resp.needs_mobile_confirmation.unwrap()`. `some true` means the early
`return Ok(())` is taken, `some false` means execution falls through to the
confirmation phase, `none` embeds the panic of `unwrap()` on `None` (which
the short-circuit `&&` reaches exactly when the field is absent). -/
def acceptEarlyReturn (needs : Option Bool) : Option Bool :=
  if needs.isNone then
    match needs with
    | none => none
    | some b => some (!b)
  else
    some false

/-- The confirmation phase of `accept_offer` (lib.rs lines 295-315): fetch
immediately (no pacing delay in the source), filter to the offer id, return
`NotFound` only when the fetch produced no confirmation list at all,
otherwise process the (possibly empty) filtered set. -/
def acceptConfirmPhase (tradeoffer_id : Int) (co : ConfirmOracles) :
    Except TradeError Unit × List NetEvent :=
  match co.fetch with
  | .error e => (.error e, [.fetchConfirmations])
  | .ok confsOpt =>
    match confsOpt.map (fun conf => filter_by_trade_offer_ids [tradeoffer_id] conf) with
    | none => (.error (.ConfirmationErr .NotFound), [.fetchConfirmations])
    | some filtered =>
      match co.process filtered with
      | .error e => (.error e, [.fetchConfirmations, .processConfirmations filtered])
      | .ok _ => (.ok (), [.fetchConfirmations, .processConfirmations filtered])

/-- `SteamTradeManager::accept_offer` (lib.rs lines 288-316). -/
def accept_offer (o : ReqOracles TradeOfferCreateResponse) (co : ConfirmOracles)
    (tradeoffer_id : Int) : Option (Except TradeError Unit) × List NetEvent :=
  let r := request o .Accept (some tradeoffer_id)
  match r.1 with
  | none => (none, r.2)
  | some (.error e) => (some (.error e), r.2)
  | some (.ok resp) =>
    match acceptEarlyReturn resp.needs_mobile_confirmation with
    | none => (none, r.2)
    | some true => (some (.ok ()), r.2)
    | some false =>
      let c := acceptConfirmPhase tradeoffer_id co
      (some c.1, r.2 ++ c.2)

/-- Draining the `FuturesOrdered` queue of `decline_received_offers` (lib.rs
lines 234-239): observe results in submission order, stop at the first error.
Also returns how many queued results were awaited. -/
def drainOrdered : List (Except TradeError Unit) → Except TradeError Unit × Nat
  | [] => (.ok (), 0)
  | .ok _ :: rest =>
    let r := drainOrdered rest
    (r.1, r.2 + 1)
  | .error e :: _ => (.error e, 1)

/-- The snapshot of queued decline outcomes, in submission order: one result
per active received offer (lib.rs lines 214-232). The per-offer decline
round-trips are abstracted by the `deny` oracle. -/
def declineResults (offers : List TradeOffer_Trade)
    (deny : Int → Except TradeError Unit) : List (Except TradeError Unit) :=
  (offers.filter (fun o => o.state == ETradeOfferState.Active && !o.is_our_offer)).map
    (fun o => deny o.tradeofferid)

/-- `SteamTradeManager::decline_received_offers` (lib.rs lines 211-244). -/
def decline_received_offers
    (offersResult : Except TradeError (List TradeOffer_Trade))
    (deny : Int → Except TradeError Unit) : Except TradeError Unit × Nat :=
  match offersResult with
  | .error e => (.error e, 0)
  | .ok offers => drainOrdered (declineResults offers deny)

/-! ## Helper lemmas -/

theorem afterPayload_no_session {T : Type} (o : ReqOracles T) (body : PayloadBody)
    (tr : List NetEvent) (g : Option (Except TradeError Unit)) (ep : String)
    (h : o.sessionid = none) :
    afterPayload o body tr g ep = (some (.error (.PayloadError sessionErrMsg)), tr) := by
  simp [afterPayload, h]

theorem afterPayload_post_sessionid {T : Type} (o : ReqOracles T) (body : PayloadBody)
    (tr : List NetEvent) (g : Option (Except TradeError Unit)) (ep : String) (s : String)
    (h : o.sessionid = some s) (htr : ∀ e p, NetEvent.postTrade e p ∉ tr) :
    ∀ e p, NetEvent.postTrade e p ∈ (afterPayload o body tr g ep).2 →
      p.sessionid = some s := by
  intro e p hp
  unfold afterPayload at hp
  rw [h] at hp
  cases ht : o.transport with
  | error er =>
    rw [ht] at hp
    simp only [List.mem_append] at hp
    rcases hp with hp | hp
    · exact absurd hp (htr e p)
    · simp only [List.mem_singleton, NetEvent.postTrade.injEq] at hp
      rw [hp.2]
  | ok txt =>
    rw [ht] at hp
    simp only [List.mem_append] at hp
    rcases hp with (hp | hp) | hp
    · exact absurd hp (htr e p)
    · simp only [List.mem_singleton, NetEvent.postTrade.injEq] at hp
      rw [hp.2]
    · by_cases hg : ((o.parseT txt).isNone && (o.parseGeneric txt).isNone && g.isSome) = true
      · rw [if_pos hg] at hp
        simp at hp
      · rw [if_neg hg] at hp
        simp at hp

/-! ## Claims -/

/-- Claim C1: the response classification of `request` is total and never
panics. For every raw response text (and any outcome of the two parse attempts
and of the guard check) `classify` yields exactly one outcome, a typed success
or a classified error; in particular a generic error envelope whose
`error_message` is not in the string-to-ErrorKind table degrades to
`OfferError.GeneralFailure` carrying the message, never a panic. -/
theorem classify_total {T : Type} (pT : String → Option T)
    (pG : String → Option TradeOfferGenericErrorResponse)
    (guard : Option (Except TradeError Unit)) (txt : String) :
    (classify pT pG guard txt).isSome = true ∧
    (∀ env msg, pT txt = none → pG txt = some env → env.error_message = some msg →
      strErrorTable.lookup msg = none →
      classify pT pG guard txt = some (.error (.OfferErr (.GeneralFailure msg)))) := by
  constructor
  · cases hT : pT txt with
    | some v => simp [classify, hT]
    | none =>
      cases hG : pG txt with
      | some resp =>
        cases hm : resp.error_message with
        | some msg => simp [classify, hT, hG, hm, error_from_strmessage]
        | none => cases he : resp.eresult <;> simp [classify, hT, hG, hm, he]
      | none =>
        cases hg : guard with
        | none => simp [classify, hT, hG, hg]
        | some r => cases r <;> simp [classify, hT, hG, hg]
  · intro env msg h1 h2 h3 h4
    simp [classify, h1, h2, h3, error_from_strmessage, h4]

theorem classify_total_witness :
    (classify (T := Nat) (fun _ => none) (fun _ => some ⟨some "boom", none⟩)
      none "x").isSome = true ∧
    classify (T := Nat) (fun _ => none) (fun _ => some ⟨some "boom", none⟩) none "x" =
      some (.error (.OfferErr (.GeneralFailure "boom"))) := by
  have h := classify_total (T := Nat) (fun _ => none)
    (fun _ => some ⟨some "boom", none⟩) none "x"
  exact ⟨h.1, h.2 ⟨some "boom", none⟩ "boom" rfl rfl rfl rfl⟩

/-- Claim C5: an Accept whose list-offers lookup holds no record with the given
trade offer id fails with `OfferError.NoMatch`, and the only network event of
the whole operation is the read round-trip: no mutating POST is ever sent. -/
theorem accept_no_match_no_mutating_request {T : Type} (o : ReqOracles T)
    (tid : Int) (offers : List TradeOffer_Trade)
    (h1 : o.offersResult = .ok offers)
    (h2 : ∀ c ∈ offers, c.tradeofferid ≠ tid) :
    request o .Accept (some tid) =
      (some (.error (.OfferErr .NoMatch)), [.getTradeOffers]) ∧
    ∀ ep p, NetEvent.postTrade ep p ∉ (request o .Accept (some tid)).2 := by
  have hf : offers.filter (fun c => c.tradeofferid == tid) = [] := by
    apply List.filter_eq_nil_iff.mpr
    intro c hc
    simpa using h2 c hc
  constructor
  · simp [request, h1, hf]
  · intro ep p hmem
    simp [request, h1, hf] at hmem

def c5o : ReqOracles Nat :=
  ⟨.ok [⟨7, 1, .Active, false⟩], some "sid", .ok "", fun _ => none, fun _ => none, .ok ()⟩

theorem accept_no_match_witness :
    request c5o .Accept (some 99) =
      (some (.error (.OfferErr .NoMatch)), [.getTradeOffers]) := by
  exact (accept_no_match_no_mutating_request c5o 99 [⟨7, 1, .Active, false⟩]
    rfl (by decide)).1

/-- Specification-side predicate: the operation reaches the session-injection
step of `request`. For Accept the offer id is present and the list-offers
lookup finds a match; for Create the offer validates; Cancel and Decline have
no earlier failure point. -/
def buildOk {T : Type} (o : ReqOracles T) : TradeKind → Option Int → Bool
  | .Accept, some tid =>
    (match o.offersResult with
     | .ok offers => ((offers.filter (fun c => c.tradeofferid == tid)).head?).isSome
     | .error _ => false)
  | .Accept, none => false
  | .Create offer, _ =>
    (match validate offer.my_assets offer.their_assets with
     | .ok _ => true
     | .error _ => false)
  | .Cancel, _ => true
  | .Decline, _ => true

/-- Claim C7: for every operation kind that reaches the session step, if the
session store has no sessionid cookie then `request` fails with the
`PayloadError` naming the missing sessionid cookie and the login requirement,
and no POST to the trade endpoint appears in the trace; when a sessionid is
available, every POST payload carries exactly that sessionid (it is injected
immediately before transport). -/
theorem request_session_handling {T : Type} (o : ReqOracles T) (op : TradeKind)
    (tid : Option Int) (hb : buildOk o op tid = true) :
    (o.sessionid = none →
      (request o op tid).1 = some (.error (.PayloadError sessionErrMsg)) ∧
      ∀ ep p, NetEvent.postTrade ep p ∉ (request o op tid).2) ∧
    (∀ s, o.sessionid = some s →
      ∀ ep p, NetEvent.postTrade ep p ∈ (request o op tid).2 → p.sessionid = some s) := by
  cases op with
  | Cancel =>
    have hreq : request o .Cancel tid =
        afterPayload o .generic [] none (TradeKind.endpoint .Cancel tid) := rfl
    rw [hreq]
    constructor
    · intro hs
      rw [afterPayload_no_session o _ _ _ _ hs]
      exact ⟨rfl, by intro ep p hp; simp at hp⟩
    · intro s hs
      exact afterPayload_post_sessionid o _ _ _ _ s hs (by intro e p; simp)
  | Decline =>
    have hreq : request o .Decline tid =
        afterPayload o .generic [] none (TradeKind.endpoint .Decline tid) := rfl
    rw [hreq]
    constructor
    · intro hs
      rw [afterPayload_no_session o _ _ _ _ hs]
      exact ⟨rfl, by intro ep p hp; simp at hp⟩
    · intro s hs
      exact afterPayload_post_sessionid o _ _ _ _ s hs (by intro e p; simp)
  | Accept =>
    cases tid with
    | none => simp [buildOk] at hb
    | some t =>
      cases ho : o.offersResult with
      | error e => rw [buildOk] at hb; rw [ho] at hb; simp at hb
      | ok offers =>
        rw [buildOk, ho] at hb
        obtain ⟨c, hc⟩ := Option.isSome_iff_exists.mp hb
        have hreq : request o .Accept (some t) =
            afterPayload o (.accept (to_steam64 ((c.tradeofferid % 4294967296).toNat)) t)
              [.getTradeOffers] none (TradeKind.endpoint .Accept (some t)) := by
          simp [request, ho, hc]
        rw [hreq]
        constructor
        · intro hs
          rw [afterPayload_no_session o _ _ _ _ hs]
          exact ⟨rfl, by intro ep p hp; simp at hp⟩
        · intro s hs
          exact afterPayload_post_sessionid o _ _ _ _ s hs (by intro e p; simp)
  | Create offer =>
    have hv : ∃ u, validate offer.my_assets offer.their_assets = .ok u := by
      rw [buildOk] at hb
      cases hv : validate offer.my_assets offer.their_assets with
      | ok u => exact ⟨u, rfl⟩
      | error e => rw [hv] at hb; simp at hb
    obtain ⟨u, hu⟩ := hv
    have hpo : prepare_offer offer =
        .ok (.create (to_steam64 offer.their_tradelink.partner_id)
          offer.my_assets offer.their_assets offer.their_tradelink.token) := by
      simp [prepare_offer, hu]
    have hreq : request o (.Create offer) tid =
        afterPayload o (.create (to_steam64 offer.their_tradelink.partner_id)
            offer.my_assets offer.their_assets offer.their_tradelink.token) []
          (some o.guardCheck) (TradeKind.endpoint (.Create offer) tid) := by
      simp [request, hpo]
    rw [hreq]
    constructor
    · intro hs
      rw [afterPayload_no_session o _ _ _ _ hs]
      exact ⟨rfl, by intro ep p hp; simp at hp⟩
    · intro s hs
      exact afterPayload_post_sessionid o _ _ _ _ s hs (by intro e p; simp)

def c7o : ReqOracles Nat :=
  ⟨.ok [], none, .ok "", fun _ => none, fun _ => none, .ok ()⟩

def c7oS : ReqOracles Nat :=
  ⟨.ok [], some "sid", .ok "", fun _ => none, fun _ => none, .ok ()⟩

theorem request_session_handling_witness :
    (request c7o .Cancel none).1 = some (.error (.PayloadError sessionErrMsg)) ∧
    (∀ ep p, NetEvent.postTrade ep p ∈ (request c7oS .Cancel none).2 →
      p.sessionid = some "sid") := by
  have h1 := request_session_handling c7o .Cancel none rfl
  have h2 := request_session_handling c7oS .Cancel none rfl
  exact ⟨(h1.1 rfl).1, h2.2 "sid" rfl⟩

/-! Lemmas about draining the ordered decline queue. -/

theorem drainOrdered_ok_iff (rs : List (Except TradeError Unit)) :
    (drainOrdered rs).1 = .ok () ↔ ∀ r ∈ rs, r = .ok () := by
  induction rs with
  | nil => simp [drainOrdered]
  | cons r rest ih =>
    cases r with
    | ok u =>
      cases u
      simp [drainOrdered, ih]
    | error e => simp [drainOrdered]

theorem drainOrdered_first_error (rs : List (Except TradeError Unit)) :
    ∀ (i : Nat) (e : TradeError) (hi : i < rs.length),
      rs.get ⟨i, hi⟩ = .error e →
      (∀ (j : Nat) (hj : j < i), rs.get ⟨j, Nat.lt_trans hj hi⟩ = .ok ()) →
      drainOrdered rs = (.error e, i + 1) := by
  induction rs with
  | nil =>
    intro i e hi
    exact absurd hi (by simp)
  | cons r rest ih =>
    intro i e hi he hprev
    cases i with
    | zero =>
      simp only [List.get] at he
      rw [he]
      rfl
    | succ n =>
      have h0 : r = .ok () := by
        have := hprev 0 (Nat.succ_pos n)
        simpa [List.get] using this
      have hi2 : n < rest.length := by simpa using Nat.lt_of_succ_lt_succ hi
      have he2 : rest.get ⟨n, hi2⟩ = .error e := by simpa [List.get] using he
      have hprev2 : ∀ (j : Nat) (hj : j < n),
          rest.get ⟨j, Nat.lt_trans hj hi2⟩ = .ok () := by
        intro j hj
        have := hprev (j + 1) (Nat.succ_lt_succ hj)
        simpa [List.get] using this
      have hrec := ih n e hi2 he2 hprev2
      rw [h0]
      simp [drainOrdered, hrec]

/-- Claim C6: the decline batch observes outcomes in submission order: for a
snapshot of queued declines where the one at (0-based) index i is the first to
fail with e, the operation returns exactly e after awaiting i+1 results (the
later queued declines are left un-awaited), and it returns Ok exactly when
every queued decline resolved without error. -/
theorem decline_batch_first_error (offers : List TradeOffer_Trade)
    (deny : Int → Except TradeError Unit) :
    ((decline_received_offers (.ok offers) deny).1 = .ok () ↔
      ∀ r ∈ declineResults offers deny, r = .ok ()) ∧
    (∀ (i : Nat) (e : TradeError) (hi : i < (declineResults offers deny).length),
      (declineResults offers deny).get ⟨i, hi⟩ = .error e →
      (∀ (j : Nat) (hj : j < i),
        (declineResults offers deny).get ⟨j, Nat.lt_trans hj hi⟩ = .ok ()) →
      decline_received_offers (.ok offers) deny = (.error e, i + 1)) := by
  constructor
  · simpa [decline_received_offers] using drainOrdered_ok_iff (declineResults offers deny)
  · intro i e hi he hprev
    simpa [decline_received_offers] using
      drainOrdered_first_error (declineResults offers deny) i e hi he hprev

def c6deny : Int → Except TradeError Unit :=
  fun tid => if tid == 2 then .error (.TransportError "boom") else .ok ()

def c6offers : List TradeOffer_Trade :=
  [⟨1, 0, .Active, false⟩, ⟨2, 0, .Active, false⟩, ⟨3, 0, .Active, false⟩]

theorem decline_batch_first_error_witness :
    decline_received_offers (.ok c6offers) c6deny = (.error (.TransportError "boom"), 2) ∧
    (declineResults c6offers c6deny).length = 3 := by
  have h := (decline_batch_first_error c6offers c6deny).2 1 (.TransportError "boom")
    (by decide) rfl ?_
  · exact ⟨h, rfl⟩
  · intro j hj
    have hj0 : j = 0 := Nat.lt_one_iff.mp hj
    subst hj0
    rfl

/-- Claim C10: given a server response deserialized as the Create success
shape `c`, `create_offer` returns a typed `Ok n` exactly when `c.tradeofferid`
is present and is the decimal representation of the 64-bit integer n; there is
no error-return branch for a success-shaped response, so any other success
shape ends in a panic (`none`), never a typed error. -/
theorem create_offer_typed_result (o : ReqOracles TradeOfferCreateResponse)
    (offer : TradeOffer) (c : TradeOfferCreateResponse)
    (h : (request o (.Create offer) none).1 = some (.ok c)) :
    (∀ n : Int, (create_offer o offer).1 = some (.ok n) ↔
      ∃ s, c.tradeofferid = some s ∧ parse_i64 s = some n) ∧
    (∀ e, (create_offer o offer).1 ≠ some (.error e)) := by
  have hc : (create_offer o offer).1 = createOfferPostprocess (some (.ok c)) := by
    simp [create_offer, h]
  rw [hc]
  constructor
  · intro n
    cases ht : c.tradeofferid with
    | none => simp [createOfferPostprocess, ht]
    | some s =>
      cases hp : parse_i64 s with
      | none => simp [createOfferPostprocess, ht, hp]
      | some m => simp [createOfferPostprocess, ht, hp, eq_comm]
  · intro e
    cases ht : c.tradeofferid with
    | none => simp [createOfferPostprocess, ht]
    | some s =>
      cases hp : parse_i64 s with
      | none => simp [createOfferPostprocess, ht, hp]
      | some m => simp [createOfferPostprocess, ht, hp]

def c10o : ReqOracles TradeOfferCreateResponse :=
  ⟨.ok [], some "sid", .ok "resp", fun _ => some ⟨some "42", none⟩, fun _ => none, .ok ()⟩

def c10offer : TradeOffer := ⟨[⟨1, 2, 3⟩], [], ⟨79925588, some "tok", "url"⟩⟩

theorem create_offer_typed_result_witness :
    (create_offer c10o c10offer).1 = some (.ok 42) := by
  have h := create_offer_typed_result c10o c10offer ⟨some "42", none⟩ rfl
  exact (h.1 42).mpr ⟨"42", rfl, rfl⟩

def c2co : ConfirmOracles := ⟨.ok (some [⟨1, some 999⟩]), fun _ => .ok ()⟩

def c2coNone : ConfirmOracles := ⟨.ok none, fun _ => .ok ()⟩

/-- Claim C2 (code behaviour at the failing input): the reconciliation after
Create and after Accept does NOT fail when the fetched confirmation list,
filtered to the given trade offer id, is empty; it only fails (with the
context-dependent variant) when the fetch returned no list at all. At a fetch
result holding one confirmation related to a different offer, the filtered set
is empty, yet both phases pass the empty set to the confirmation processor and
return success. -/
theorem reconcile_checks_fetch_option_not_filtered_set :
    filter_by_trade_offer_ids [5] [⟨1, some 999⟩] = [] ∧
    (confirmPhaseCreate 5 c2co).1 = .ok 5 ∧
    (acceptConfirmPhase 5 c2co).1 = .ok () ∧
    (confirmPhaseCreate 5 c2co).2 =
      [.delayMs STANDARD_DELAY, .fetchConfirmations, .processConfirmations []] ∧
    (confirmPhaseCreate 5 c2coNone).1 =
      .error (.ConfirmationErr (.NotFoundButTradeCreated 5)) ∧
    (acceptConfirmPhase 5 c2coNone).1 = .error (.ConfirmationErr .NotFound) := by
  exact ⟨rfl, rfl, rfl, rfl, rfl, rfl⟩

def c3o : ReqOracles TradeOfferCreateResponse :=
  ⟨.ok [⟨123, 79925588, .Active, false⟩], some "sid", .ok "resp",
   fun _ => some ⟨some "77", some false⟩, fun _ => none, .ok ()⟩

/-- Claim C3 (code behaviour at the failing input): the Accept payload derives
`their_steamid` from the matched record TRADE OFFER id (truncated to u32 and
pushed through the steam3-to-steam64 mapping), not from the record counterparty
account id: with a matched record of offer id 123 and counterparty 79925588 the
POST carries `to_steam64 123`, which differs from the counterparty 64-bit id
`to_steam64 79925588`. -/
theorem accept_payload_steamid_from_tradeofferid :
    (request c3o .Accept (some 123)).2 =
      [.getTradeOffers,
       .postTrade (TradeKind.endpoint .Accept (some 123))
         ⟨.accept (to_steam64 123) 123, some "sid"⟩] ∧
    to_steam64 123 ≠ to_steam64 79925588 := by
  exact ⟨rfl, by decide⟩

def c4oNone : ReqOracles TradeOfferCreateResponse :=
  ⟨.ok [⟨5, 7, .Active, false⟩], some "sid", .ok "resp",
   fun _ => some ⟨some "1", none⟩, fun _ => none, .ok ()⟩

def c4oFalse : ReqOracles TradeOfferCreateResponse :=
  ⟨.ok [⟨5, 7, .Active, false⟩], some "sid", .ok "resp",
   fun _ => some ⟨some "1", some false⟩, fun _ => none, .ok ()⟩

def c4co : ConfirmOracles := ⟨.ok (some []), fun _ => .ok ()⟩

/-- Claim C4 (code behaviour at the failing input): the early-return test of
`accept_offer` is `needs.is_none() && !needs.unwrap()`, which panics when the
field is missing and is false whenever the field is present; so a missing
field panics (result `none`) instead of returning Ok, and a present `false`
field proceeds to fetch and process confirmations instead of returning Ok
without any confirmation traffic. -/
theorem accept_needs_confirmation_branch :
    acceptEarlyReturn none = none ∧
    acceptEarlyReturn (some false) = some false ∧
    acceptEarlyReturn (some true) = some false ∧
    (accept_offer c4oNone c4co 5).1 = none ∧
    (accept_offer c4oFalse c4co 5).2 =
      [.getTradeOffers,
       .postTrade (TradeKind.endpoint .Accept (some 5))
         ⟨.accept (to_steam64 5) 5, some "sid"⟩,
       .fetchConfirmations, .processConfirmations []] := by
  exact ⟨rfl, rfl, rfl, rfl, rfl⟩

def c8o : ReqOracles TradeOfferCreateResponse :=
  ⟨.ok [⟨5, 7, .Active, false⟩], some "sid", .ok "resp",
   fun _ => some ⟨none, some true⟩, fun _ => none, .ok ()⟩

def c8co : ConfirmOracles := ⟨.ok none, fun _ => .ok ()⟩

/-- Claim C8 counterexample: a full Accept run that reaches the confirmation
phase fetches the pending confirmations with NO pacing delay anywhere in its
event trace; the claimed wait of one pacing interval before the fetch holds
only on the Create path. -/
theorem accept_confirm_fetch_without_delay :
    (accept_offer c8o c8co 5).2 =
      [.getTradeOffers,
       .postTrade (TradeKind.endpoint .Accept (some 5))
         ⟨.accept (to_steam64 5) 5, some "sid"⟩,
       .fetchConfirmations] ∧
    ∀ n, NetEvent.delayMs n ∉ (accept_offer c8o c8co 5).2 := by
  constructor
  · rfl
  · intro n h
    have ht : (accept_offer c8o c8co 5).2 =
        [.getTradeOffers,
         .postTrade (TradeKind.endpoint .Accept (some 5))
           ⟨.accept (to_steam64 5) 5, some "sid"⟩,
         .fetchConfirmations] := rfl
    rw [ht] at h
    simp at h

/-- Claim C8 as amended: only the after-Create reconciliation first waits the
fixed pacing interval (1000 ms) and then fetches the pending-confirmation
list; the after-Accept reconciliation fetches first, with no pacing delay at
all in its trace. -/
theorem confirm_pacing_amended (tid : Int) (co : ConfirmOracles) :
    (confirmPhaseCreate tid co).2.take 2 =
      [.delayMs STANDARD_DELAY, .fetchConfirmations] ∧
    (acceptConfirmPhase tid co).2.head? = some .fetchConfirmations ∧
    ∀ n, NetEvent.delayMs n ∉ (acceptConfirmPhase tid co).2 := by
  refine ⟨?_, ?_, ?_⟩
  · unfold confirmPhaseCreate
    cases co.fetch with
    | error e => rfl
    | ok confsOpt =>
      cases confsOpt with
      | none => rfl
      | some l =>
        cases hp : co.process (filter_by_trade_offer_ids [tid] l) <;> simp [hp]
  · unfold acceptConfirmPhase
    cases co.fetch with
    | error e => rfl
    | ok confsOpt =>
      cases confsOpt with
      | none => rfl
      | some l =>
        cases hp : co.process (filter_by_trade_offer_ids [tid] l) <;> simp [hp]
  · intro n
    unfold acceptConfirmPhase
    cases co.fetch with
    | error e => simp
    | ok confsOpt =>
      cases confsOpt with
      | none => simp
      | some l =>
        cases hp : co.process (filter_by_trade_offer_ids [tid] l) <;> simp [hp]

def c9o : ReqOracles Nat :=
  ⟨.ok [], some "sid", .ok "", fun _ => none, fun _ => none, .ok ()⟩

def c9tl : Tradelink := ⟨1, none, "url"⟩

/-- Claim C9 counterexample: a two-item side that repeats one asset triple has
combined count at most 255 and a non-empty side, yet `validate` rejects it (the
validator also enforces the no-duplicate rule), so "combined count at most 255
with at least one non-empty side" does not suffice for success. -/
theorem validate_duplicate_counterexample :
    ([⟨1, 2, 3⟩, ⟨1, 2, 3⟩] : List Asset).length + ([] : List Asset).length ≤
      TRADE_MAX_ITEMS ∧
    ([⟨1, 2, 3⟩, ⟨1, 2, 3⟩] : List Asset) ≠ [] ∧
    validate [⟨1, 2, 3⟩, ⟨1, 2, 3⟩] [] =
      .error (.ValidationError "A trade offer side cannot repeat an asset.") := by
  refine ⟨by decide, by decide, by rfl⟩

/-- Claim C9 as amended: when the combined item count exceeds 255 `validate`
fails with a `ValidationError` and a Create `request` returns that error with
an empty network trace (no network call); when the combined count is at most
255, at least one side is non-empty and neither side repeats an asset triple,
`validate` succeeds. -/
theorem validate_bounds {T : Type} (o : ReqOracles T) (my their : List Asset)
    (tl : Tradelink) :
    (my.length + their.length > TRADE_MAX_ITEMS →
      validate my their =
        .error (.ValidationError "A trade offer cannot have more than 255 items.") ∧
      request o (.Create ⟨my, their, tl⟩) none =
        (some (.error (.ValidationError "A trade offer cannot have more than 255 items.")),
         [])) ∧
    (my.length + their.length ≤ TRADE_MAX_ITEMS → (my ≠ [] ∨ their ≠ []) →
      my.Nodup → their.Nodup → validate my their = .ok ()) := by
  constructor
  · intro h
    have hv : validate my their =
        .error (.ValidationError "A trade offer cannot have more than 255 items.") := by
      unfold validate
      rw [if_pos h]
    refine ⟨hv, ?_⟩
    have hpo : prepare_offer ⟨my, their, tl⟩ =
        .error (.ValidationError "A trade offer cannot have more than 255 items.") := by
      simp [prepare_offer, hv]
    simp [request, hpo]
  · intro h1 h2 h3 h4
    unfold validate
    rw [if_neg (by omega), if_neg (by tauto), if_neg (by tauto)]

def c9big : List Asset := List.replicate 300 ⟨1, 1, 1⟩

theorem validate_bounds_witness :
    validate c9big [] =
      .error (.ValidationError "A trade offer cannot have more than 255 items.") ∧
    request c9o (.Create ⟨c9big, [], c9tl⟩) none =
      (some (.error (.ValidationError "A trade offer cannot have more than 255 items.")),
       []) ∧
    validate [⟨1, 1, 1⟩] [] = .ok () := by
  have hlen : c9big.length = 300 := by simp only [c9big, List.length_replicate]
  have hbig : c9big.length + ([] : List Asset).length > TRADE_MAX_ITEMS := by
    rw [hlen]
    decide
  have h1 := (validate_bounds c9o c9big [] c9tl).1 hbig
  have h2 := (validate_bounds c9o [⟨1, 1, 1⟩] [] c9tl).2 (by decide)
    (Or.inl (by decide)) (by decide) (by decide)
  exact ⟨h1.1, h1.2, h2⟩

end SteamTrading
